import Mathlib

/-!
Verification of the GitHub pull-request webhook ingestion pipeline.

Shallow embedding of `src/Api/webhooks.py`, `src/Api/main.py` and
`src/Api/models.py`.

Modelling conventions:
* Python `dict` payloads are embedded as structures of `Option` fields.
  For scalar (leaf) JSON values, a JSON `null` and an absent key are both
  modelled as `none`: for every leaf read in this code the two produce the
  same behaviour (falsy test, mapping default, or caught parse exception).
  For object-valued keys that are re-read with `.get` (`user`, `head`,
  `base`, `repository`, `pull_request`), a JSON `null` behaves differently
  from an absent key in Python (`None.get(...)` raises `AttributeError`
  while `{}.get(...)` does not), so those are embedded three-way as
  `Option (Option _)`: `none` = key absent, `some none` = JSON `null`,
  `some (some o)` = object value.
* Python machine-independent `int` is `Int`; surrogate ids are `Nat`.
* `datetime` values are abstract clock ticks (`Nat`); `datetime.fromisoformat`
  (Python stdlib, external to the repository) is a parameter
  `fromiso : String → Option Nat` (`none` = the `ValueError`/`AttributeError`
  caught by the source), and each event is processed at one current time
  `now : Nat` standing for `datetime.now(timezone.utc)`.
* The HMAC-SHA256 hex digest (Python stdlib `hmac`/`hashlib`) is a parameter
  `hexMac : String → List Nat → String` from (secret, body bytes) to the
  hex digest string.
* The SQLAlchemy session is a persisted `DBState` threaded through the
  handler; pending mutations become visible only at the
  `db.commit()` points of the source, and `db.rollback()` discards them, so an exception
  raised before a commit leaves the state unchanged.  The only commit whose
  failure the claims discuss is the one in the file-handling block of
  `handle_pull_request_event`; its fallibility is injected through the
  boolean `ffail` (`true` = that commit raises and the block rolls back).
-/

deriving instance DecidableEq for Except

/-- A single-quote character as a string (used to reproduce Python error
messages literally). -/
def pyQuote : String := (Char.ofNat 39).toString

/-- Python `str` applied to a list of strings: brackets, comma
separators, and each element wrapped in single quotes. -/
def pyListRepr (l : List String) : String :=
  "[" ++ String.intercalate ", " (l.map (fun s => pyQuote ++ s ++ pyQuote)) ++ "]"

/-- Source `models.py`: `class PRStatus(str, Enum)`. -/
inductive PRStatus where
  | OPEN
  | CLOSED
  | MERGED
deriving DecidableEq, Repr

/-- The `user` sub-object of a pull-request payload. -/
structure UserObj where
  login : Option String
deriving DecidableEq, Repr

/-- The `head`/`base` sub-objects of a pull-request payload. -/
structure RefObj where
  ref : Option String
  sha : Option String
deriving DecidableEq, Repr

/-- The `repository` sub-object of a webhook payload. -/
structure RepoObj where
  full_name : Option String
deriving DecidableEq, Repr

/-- The `pull_request` sub-object of a webhook payload.  Object-valued
fields (`user`, `head`, `base`) are three-way (see module docstring). -/
structure PRObj where
  title : Option String
  user : Option (Option UserObj)
  number : Option Int
  state : Option String
  body : Option String
  id : Option Int
  html_url : Option String
  head : Option (Option RefObj)
  base : Option (Option RefObj)
  additions : Option Int
  deletions : Option Int
  changed_files : Option Int
  commits : Option Int
  draft : Option Bool
  mergeable : Option Bool
  rebaseable : Option Bool
  mergeable_state : Option String
  created_at : Option String
  updated_at : Option String
  closed_at : Option String
  merged_at : Option String
deriving DecidableEq, Repr

/-- A pull-request sub-object with every key absent: the Python `{}` that
`payload.get("pull_request", {})` returns for an absent key. -/
def PRObj.emptyObj : PRObj :=
  { title := none, user := none, number := none, state := none, body := none
    id := none, html_url := none, head := none, base := none
    additions := none, deletions := none, changed_files := none
    commits := none, draft := none, mergeable := none, rebaseable := none
    mergeable_state := none, created_at := none, updated_at := none
    closed_at := none, merged_at := none }

/-- Python truthiness of the pull-request dict: `if not pr_data` is true
exactly when every key is absent (the empty dict). -/
def PRObj.isEmptyObj (o : PRObj) : Bool :=
  o.title.isNone && o.user.isNone && o.number.isNone && o.state.isNone &&
  o.body.isNone && o.id.isNone && o.html_url.isNone && o.head.isNone &&
  o.base.isNone && o.additions.isNone && o.deletions.isNone &&
  o.changed_files.isNone && o.commits.isNone && o.draft.isNone &&
  o.mergeable.isNone && o.rebaseable.isNone && o.mergeable_state.isNone &&
  o.created_at.isNone && o.updated_at.isNone && o.closed_at.isNone &&
  o.merged_at.isNone

/-- A webhook payload: top-level `action`, `pull_request` and `repository`
keys.  `pull_request` and `repository` are three-way (see docstring). -/
structure Payload where
  action : Option String
  pull_request : Option (Option PRObj)
  repository : Option (Option RepoObj)
deriving DecidableEq, Repr

/-- The normalized field set returned by
`GitHubWebhookHandler.parse_pull_request_data` (the dict built at
`webhooks.py` lines 113-146). -/
structure ParsedPR where
  title : String
  description : String
  status : PRStatus
  author : String
  repository : String
  pr_number : Int
  github_id : Option Int
  html_url : String
  branch_name : String
  base_branch : String
  commit_sha : String
  base_commit_sha : String
  additions : Int
  deletions : Int
  changed_files : Int
  commits_count : Int
  draft : Bool
  mergeable : Option Bool
  rebaseable : Option Bool
  mergeable_state : Option String
  created_at : Nat
  updated_at : Nat
  closed_at : Option Nat
  merged_at : Option Nat
deriving DecidableEq, Repr

/-- Lookup `status_mapping.get(pr_data.get("state", "open"), PRStatus.OPEN)`:
an absent key defaults to `"open"`; a `null` or unrecognized state falls
through to the mapping default `OPEN`. -/
def statusOf (s : Option String) : PRStatus :=
  match s with
  | some "open" => PRStatus.OPEN
  | some "closed" => PRStatus.CLOSED
  | some "merged" => PRStatus.MERGED
  | some _ => PRStatus.OPEN
  | none => PRStatus.OPEN

/-- The message of the Python `AttributeError` raised by `None.get(...)`,
as wrapped into the `ValueError` at `webhooks.py` line 149. -/
def noneTypeGetMsg : String :=
  pyQuote ++ "NoneType" ++ pyQuote ++ " object has no attribute " ++ pyQuote ++ "get" ++ pyQuote

/-- The wrapping every parse failure receives at `webhooks.py` lines
148-149. -/
def parseFailTag : String := "Failed to parse pull request data: "

/-- Handling of `pr_data.get("closed_at")` / `pr_data.get("merged_at")` at
`webhooks.py` lines 77-90: only a truthy (present, non-null, non-empty)
string is parsed, and a parse failure leaves the field unset. -/
def parseOptionalDate (fromiso : String → Option Nat) (s : Option String) :
    Option Nat :=
  match s with
  | none => none
  | some str => if str = "" then none else fromiso str

/-- Handling of `created_at`/`updated_at` at `webhooks.py` lines 64-74: an
absent/null key or a parse failure falls back to the current time. -/
def parseRequiredDate (fromiso : String → Option Nat) (now : Nat)
    (s : Option String) : Nat :=
  match s with
  | none => now
  | some str => (fromiso str).getD now

/-- Method `GitHubWebhookHandler.parse_pull_request_data` (`webhooks.py`
lines 31-149).  Every raised `ValueError`/`AttributeError` is wrapped once by
the `except` clause of the function itself into
`"Failed to parse pull request data: <msg>"`. -/
def parse_pull_request_data (fromiso : String → Option Nat) (now : Nat)
    (payload : Payload) : Except String ParsedPR :=
  let pr_data := (payload.pull_request.getD (some PRObj.emptyObj)).getD
    PRObj.emptyObj
  -- `if not pr_data`: true for an absent key (default `{}`), a JSON null,
  -- and a present-but-empty dict.
  if (payload.pull_request == some none) || pr_data.isEmptyObj then
    Except.error (parseFailTag ++ "Pull request data is missing or empty")
  else
    let title := pr_data.title.getD ""
    if title = "" then
      Except.error (parseFailTag ++ "Pull request title is missing")
    else
      match pr_data.user with
      | some none =>
        -- `pr_data.get("user", {})` returned `None`: `.get` raises.
        Except.error (parseFailTag ++ noneTypeGetMsg)
      | u =>
        let author := ((u.getD (some ⟨none⟩)).getD ⟨none⟩).login.getD ""
        if author = "" then
          Except.error (parseFailTag ++ "Pull request author is missing")
        else
          match payload.repository with
          | some none => Except.error (parseFailTag ++ noneTypeGetMsg)
          | r =>
            let repository :=
              ((r.getD (some ⟨none⟩)).getD ⟨none⟩).full_name.getD ""
            if repository = "" then
              Except.error (parseFailTag ++
                "Repository information is missing")
            else
              match pr_data.number with
              | none =>
                Except.error (parseFailTag ++
                  "Pull request number is missing")
              | some pr_number =>
                let created_at := parseRequiredDate fromiso now
                  pr_data.created_at
                let updated_at := parseRequiredDate fromiso now
                  pr_data.updated_at
                let closed_at := parseOptionalDate fromiso pr_data.closed_at
                let merged_at := parseOptionalDate fromiso pr_data.merged_at
                match pr_data.head with
                | some none => Except.error (parseFailTag ++ noneTypeGetMsg)
                | h =>
                  match pr_data.base with
                  | some none =>
                    Except.error (parseFailTag ++ noneTypeGetMsg)
                  | b =>
                    let head := (h.getD (some ⟨none, none⟩)).getD ⟨none, none⟩
                    let base := (b.getD (some ⟨none, none⟩)).getD ⟨none, none⟩
                    Except.ok
                      { title := title
                        description := pr_data.body.getD ""
                        status := statusOf pr_data.state
                        author := author
                        repository := repository
                        pr_number := pr_number
                        github_id := pr_data.id
                        html_url := pr_data.html_url.getD ""
                        branch_name := head.ref.getD ""
                        base_branch := base.ref.getD ""
                        commit_sha := head.sha.getD ""
                        base_commit_sha := base.sha.getD ""
                        additions := pr_data.additions.getD 0
                        deletions := pr_data.deletions.getD 0
                        changed_files := pr_data.changed_files.getD 0
                        commits_count := pr_data.commits.getD 0
                        draft := pr_data.draft.getD false
                        mergeable := pr_data.mergeable
                        rebaseable := pr_data.rebaseable
                        mergeable_state := pr_data.mergeable_state
                        created_at := created_at
                        updated_at := updated_at
                        closed_at := closed_at
                        merged_at := merged_at }

/-- Source `models.py` class `PullRequest` (a stored row).  Field types
follow the values the ingestion pipeline actually stores (the normalized
field set plus the surrogate `id`); `pr_number: int = Field(unique=True)`
is captured separately by the predicate `pr_number_unique`. -/
structure PullRequest where
  id : Nat
  title : String
  description : String
  status : PRStatus
  author : String
  repository : String
  pr_number : Int
  github_id : Option Int
  html_url : String
  branch_name : String
  base_branch : String
  commit_sha : String
  base_commit_sha : String
  additions : Int
  deletions : Int
  changed_files : Int
  commits_count : Int
  draft : Bool
  mergeable : Option Bool
  rebaseable : Option Bool
  mergeable_state : Option String
  created_at : Nat
  updated_at : Nat
  closed_at : Option Nat
  merged_at : Option Nat
deriving DecidableEq, Repr

/-- Source `models.py` class `File` (a stored row). -/
structure File where
  id : Nat
  filename : String
  file_path : String
  status : String
  additions : Int
  deletions : Int
  changes : Int
  sha : Option String
  blob_url : Option String
  raw_url : Option String
  contents_url : Option String
  file_size : Option Int
  file_extension : Option String
  pull_request_id : Nat
  created_at : Nat
deriving DecidableEq, Repr

/-- The persistent store: the two tables plus the id sequences the
database would use for newly inserted rows. -/
structure DBState where
  prs : List PullRequest
  files : List File
  nextPrId : Nat
  nextFileId : Nat
deriving DecidableEq, Repr

/-- A freshly created database (`init_db.py` creates empty tables; SQL id
sequences start at 1). -/
def emptyDB : DBState := ⟨[], [], 1, 1⟩

/-- The `where` clause of the upsert lookup (`webhooks.py` lines 212-215):
`PullRequest.pr_number == pr_data["pr_number"]` and
`PullRequest.repository == pr_data["repository"]`. -/
def prKeyMatch (repo : String) (num : Int) (r : PullRequest) : Bool :=
  decide (r.pr_number = num ∧ r.repository = repo)

/-- SQLAlchemy `Result.scalar_one_or_none`: `none` for no row, the row if
unique, and `MultipleResultsFound` when several rows match. -/
def scalarOneOrNone (l : List PullRequest) :
    Except String (Option PullRequest) :=
  match l with
  | [] => Except.ok none
  | [p] => Except.ok (some p)
  | _ =>
    Except.error "Multiple rows were found when one or none was required"

/-- The existing-PR lookup at `webhooks.py` lines 210-216. -/
def find_existing (p : ParsedPR) (db : DBState) :
    Except String (Option PullRequest) :=
  scalarOneOrNone (db.prs.filter (prKeyMatch p.repository p.pr_number))

/-- Row constructed by `PullRequest(**pr_data)` at `webhooks.py` line 236,
with the id the database assigns on commit. -/
def mkNewPR (id : Nat) (p : ParsedPR) : PullRequest :=
  { id := id
    title := p.title
    description := p.description
    status := p.status
    author := p.author
    repository := p.repository
    pr_number := p.pr_number
    github_id := p.github_id
    html_url := p.html_url
    branch_name := p.branch_name
    base_branch := p.base_branch
    commit_sha := p.commit_sha
    base_commit_sha := p.base_commit_sha
    additions := p.additions
    deletions := p.deletions
    changed_files := p.changed_files
    commits_count := p.commits_count
    draft := p.draft
    mergeable := p.mergeable
    rebaseable := p.rebaseable
    mergeable_state := p.mergeable_state
    created_at := p.created_at
    updated_at := p.updated_at
    closed_at := p.closed_at
    merged_at := p.merged_at }

/-- The update loop at `webhooks.py` lines 221-224: every key of the
normalized dict is copied onto the existing row except `id`, `pr_number`
and `repository`, and then `updated_at` is overwritten with the current
time. -/
def updatedOf (r : PullRequest) (p : ParsedPR) (now : Nat) : PullRequest :=
  { r with
    title := p.title
    description := p.description
    status := p.status
    author := p.author
    github_id := p.github_id
    html_url := p.html_url
    branch_name := p.branch_name
    base_branch := p.base_branch
    commit_sha := p.commit_sha
    base_commit_sha := p.base_commit_sha
    additions := p.additions
    deletions := p.deletions
    changed_files := p.changed_files
    commits_count := p.commits_count
    draft := p.draft
    mergeable := p.mergeable
    rebaseable := p.rebaseable
    mergeable_state := p.mergeable_state
    created_at := p.created_at
    updated_at := now
    closed_at := p.closed_at
    merged_at := p.merged_at }

/-- Effect of committing the in-place `setattr` update on the table: only
the (unique) row matched by the key lookup is rewritten. -/
def apply_update (p : ParsedPR) (now : Nat) (l : List PullRequest) :
    List PullRequest :=
  l.map (fun r =>
    if prKeyMatch p.repository p.pr_number r then updatedOf r p now else r)

/-- Action whitelist at `webhooks.py` line 189. -/
def supported_actions : List String :=
  ["opened", "synchronize", "reopened", "closed"]

/-- Actions for which the file block runs (`webhooks.py` line 248). -/
def file_actions : List String := ["opened", "synchronize", "reopened"]

/-- The required-field recheck at `webhooks.py` lines 204-205: a field is
"missing" when its parsed value is Python-falsy (`""` for the strings,
`0` for the number). -/
def missing_required (p : ParsedPR) : List String :=
  (if p.title = "" then ["title"] else []) ++
  (if p.author = "" then ["author"] else []) ++
  (if p.repository = "" then ["repository"] else []) ++
  (if p.pr_number = 0 then ["pr_number"] else [])

/-- The placeholder `File` row built at `webhooks.py` lines 261-269 (the
source does not fetch real file listings). -/
def placeholder_file (id : Nat) (prId : Nat) (now : Nat) : File :=
  { id := id
    filename := "files_updated"
    file_path := "files_updated"
    status := "modified"
    additions := 0
    deletions := 0
    changes := 0
    sha := none
    blob_url := none
    raw_url := none
    contents_url := none
    file_size := none
    file_extension := none
    pull_request_id := prId
    created_at := now }

/-- The file-handling block at `webhooks.py` lines 247-275.  `hadExisting`
is the truthiness of the `existing_pr` lookup result.  When `ffail` is
`true` the `db.commit()` of the block raises; the `except` clause rolls the
pending deletes/insert back and swallows the error, leaving the store as
the upsert committed it. -/
def handle_files (a : String) (hadExisting : Bool) (prId : Nat) (now : Nat)
    (ffail : Bool) (db : DBState) : DBState :=
  if a ∈ file_actions then
    if ¬ hadExisting ∨ a = "synchronize" then
      if ffail then db
      else
        let kept := if hadExisting then
          db.files.filter (fun f => ¬ (f.pull_request_id = prId)) else db.files
        { db with files := kept ++ [placeholder_file db.nextFileId prId now]
                  nextFileId := db.nextFileId + 1 }
    else db
  else db

/-- A result dict returned by `handle_pull_request_event`: either the
ignored-action dict (lines 190-195) or the success dict (lines 277-288). -/
inductive HandlerOutcome where
  | ignored (message : String) (status : String)
      (supportedActions : List String) (receivedAction : String)
  | success (message : String) (pr_id : Nat) (pr_number : Int)
      (action : String) (status : String) (repository : String)
      (author : String) (title : String)
deriving DecidableEq, Repr

/-- Whether a handler outcome is the success dict. -/
def HandlerOutcome.isSuccess : HandlerOutcome → Bool
  | HandlerOutcome.success _ _ _ _ _ _ _ _ => true
  | HandlerOutcome.ignored _ _ _ _ => false

/-- The wrapping of every exception escaping the handler at `webhooks.py`
lines 290-293. -/
def processFailMsg (m : String) : String :=
  "Webhook processing failed: " ++ m

/-- Message of the `ValueError` raised at `webhooks.py` line 187. -/
def missingActionMsg : String :=
  "Missing " ++ pyQuote ++ "action" ++ pyQuote ++ " field in webhook payload"

/-- Method `GitHubWebhookHandler.handle_pull_request_event` (`webhooks.py`
lines 181-293).  The returned `Except` is the raised-or-returned outcome;
the returned `DBState` is the committed store when control leaves the
function. -/
def handle_pull_request_event (fromiso : String → Option Nat) (now : Nat)
    (ffail : Bool) (payload : Payload) (db : DBState) :
    Except String HandlerOutcome × DBState :=
  match payload.action with
  | none => (Except.error (processFailMsg missingActionMsg), db)
  | some a =>
    if a = "" then (Except.error (processFailMsg missingActionMsg), db)
    else if ¬ (a ∈ supported_actions) then
      (Except.ok (HandlerOutcome.ignored
        ("Action " ++ pyQuote ++ a ++ pyQuote ++ " not handled")
        "ignored" supported_actions a), db)
    else
      match parse_pull_request_data fromiso now payload with
      | Except.error m =>
        -- wrapped once more at line 201, then at line 293
        (Except.error (processFailMsg (parseFailTag ++ m)), db)
      | Except.ok p =>
        match missing_required p with
        | f :: fs =>
          (Except.error (processFailMsg
            ("Missing required fields: " ++ pyListRepr (f :: fs))), db)
        | [] =>
          match find_existing p db with
          | Except.error m => (Except.error (processFailMsg m), db)
          | Except.ok existing =>
            let prId := match existing with
              | some r => r.id
              | none => db.nextPrId
            let msg := match existing with
              | some _ => "Updated existing PR #" ++ toString p.pr_number
              | none => "Created new PR #" ++ toString p.pr_number
            let db1 := match existing with
              | some _ => { db with prs := apply_update p now db.prs }
              | none => { db with prs := db.prs ++ [mkNewPR db.nextPrId p]
                                  nextPrId := db.nextPrId + 1 }
            let db2 := handle_files a existing.isSome prId now ffail db1
            (Except.ok (HandlerOutcome.success msg prId p.pr_number a
              "success" p.repository p.author p.title), db2)

/-- Method `GitHubWebhookHandler.verify_signature` (`webhooks.py` lines
19-29).  A falsy (empty) secret skips verification; a missing
`X-Hub-Signature-256` header fails; otherwise the header is compared
(`hmac.compare_digest`, i.e. string equality) against
`"sha256=" ++ hexMac secret body`. -/
def verify_signature (hexMac : String → List Nat → String) (secret : String)
    (sig : Option String) (payload : List Nat) : Bool :=
  if secret = "" then true
  else
    match sig with
    | none => false
    | some s => decide (s = "sha256=" ++ hexMac secret payload)

/-- An inbound HTTP request as `github_webhook` observes it: the raw body
bytes, the result of `json.loads` on them (`none` = `JSONDecodeError`),
and the two headers it reads. -/
structure Request where
  body : List Nat
  json : Option Payload
  sigHeader : Option String
  eventHeader : Option String
deriving DecidableEq, Repr

/-- A response of the `/webhooks/github` route: an `HTTPException` with a
status code and the `error` field of its detail dict, the ignored-event
dict (`main.py` lines 336-341), or the result dict of the handler. -/
inductive GWResponse where
  | httpError (statusCode : Nat) (error : String)
  | eventIgnored (message : String) (status : String)
      (supportedEvents : List String) (receivedEvent : String)
  | handled (r : HandlerOutcome)
deriving DecidableEq, Repr

/-- Route `github_webhook` (`main.py` lines 280-386): empty-body check,
JSON parse, signature verification, event-type filtering, shape check,
then the pull-request handler; a handler exception is answered with a 500
after a (pending-free) rollback. -/
def github_webhook (hexMac : String → List Nat → String) (secret : String)
    (fromiso : String → Option Nat) (now : Nat) (ffail : Bool)
    (req : Request) (db : DBState) : GWResponse × DBState :=
  if req.body = [] then (GWResponse.httpError 400 "Empty payload", db)
  else
    match req.json with
    | none => (GWResponse.httpError 400 "Invalid JSON payload", db)
    | some payload =>
      if verify_signature hexMac secret req.sigHeader req.body = false then
        (GWResponse.httpError 401 "Invalid webhook signature", db)
      else
        match req.eventHeader with
        | none => (GWResponse.httpError 400 "Missing event type", db)
        | some et =>
          -- `if not event_type` (`main.py` line 325): a present but empty
          -- header string is falsy and also gets the 400.
          if et = "" then (GWResponse.httpError 400 "Missing event type", db)
          else if ¬ (et = "pull_request") then
            (GWResponse.eventIgnored
              ("Event type " ++ pyQuote ++ et ++ pyQuote ++ " not handled")
              "ignored" ["pull_request"] et, db)
          else if payload.pull_request = none then
            -- `"pull_request" not in payload`: a JSON-null value still
            -- counts as present (`some none` here) and reaches the handler.
            (GWResponse.httpError 400 "Missing pull request data", db)
          else
            match handle_pull_request_event fromiso now ffail payload db with
            | (Except.error m, db2) =>
              (GWResponse.httpError 500
                ("Failed to process webhook event: " ++ m), db2)
            | (Except.ok r, db2) => (GWResponse.handled r, db2)

/-- Sequential processing of a list of webhook events, each with its own
current time and file-commit fate. -/
def process_events (fromiso : String → Option Nat)
    (evs : List (Payload × Nat × Bool)) (db : DBState) : DBState :=
  evs.foldl
    (fun d e => (handle_pull_request_event fromiso e.2.1 e.2.2 e.1 d).2) db

/-- The uniqueness invariant the upsert engine maintains: no two stored
rows share the `(repository, pr_number)` lookup key. -/
def KeyUnique (l : List PullRequest) : Prop :=
  l.Pairwise (fun a b =>
    ¬ (a.repository = b.repository ∧ a.pr_number = b.pr_number))

/-- The uniqueness constraint `models.py` line 21 actually declares:
`pr_number: int = Field(unique=True)` — `pr_number` alone, not the
composite `(repository, pr_number)`. -/
def pr_number_unique (l : List PullRequest) : Prop :=
  l.Pairwise (fun a b => a.pr_number ≠ b.pr_number)

/-- The file block never touches the pull-request table. -/
theorem handle_files_prs (a : String) (he : Bool) (prId now : Nat)
    (ff : Bool) (db : DBState) : (handle_files a he prId now ff db).prs = db.prs := by
  unfold handle_files
  repeat' split
  all_goals rfl

/-- Lookup characterization: an `ok none` result means no row matched. -/
theorem scalarOneOrNone_ok_none {l : List PullRequest}
    (h : scalarOneOrNone l = Except.ok none) : l = [] := by
  match l with
  | [] => rfl
  | [p] => simp [scalarOneOrNone] at h
  | p :: q :: t => simp [scalarOneOrNone] at h

/-- Lookup characterization: an `ok (some p)` result means exactly one row
matched. -/
theorem scalarOneOrNone_ok_some {l : List PullRequest} {p : PullRequest}
    (h : scalarOneOrNone l = Except.ok (some p)) : l = [p] := by
  match l with
  | [] => simp [scalarOneOrNone] at h
  | [q] => simp [scalarOneOrNone] at h; rw [h]
  | q :: r :: t => simp [scalarOneOrNone] at h

/-- The conditional rewrite of one row in the update commit keeps both key
fields. -/
theorem key_fields_if_update (p : ParsedPR) (now : Nat) (a : PullRequest) :
    ((if prKeyMatch p.repository p.pr_number a then updatedOf a p now else a).repository
      = a.repository) ∧
    ((if prKeyMatch p.repository p.pr_number a then updatedOf a p now else a).pr_number
      = a.pr_number) := by
  split
  · exact ⟨rfl, rfl⟩
  · exact ⟨rfl, rfl⟩

/-- The update row matches the lookup key exactly when the original row
does. -/
theorem prKeyMatch_updatedOf (repo : String) (num : Int) (p : ParsedPR)
    (now : Nat) (a : PullRequest) :
    prKeyMatch repo num (updatedOf a p now) = prKeyMatch repo num a := rfl

/-- Committing the in-place update preserves the key-uniqueness
invariant. -/
theorem apply_update_KeyUnique (p : ParsedPR) (now : Nat)
    {l : List PullRequest} (h : KeyUnique l) :
    KeyUnique (apply_update p now l) := by
  unfold apply_update KeyUnique at *
  refine List.Pairwise.map _ (fun a b hab => ?_) h
  rw [(key_fields_if_update p now a).1, (key_fields_if_update p now a).2,
    (key_fields_if_update p now b).1, (key_fields_if_update p now b).2]
  exact hab

/-- Inserting a row whose key matched nothing preserves the
key-uniqueness invariant. -/
theorem KeyUnique_insert {l : List PullRequest} (p : ParsedPR) (id : Nat)
    (h : KeyUnique l)
    (hf : l.filter (prKeyMatch p.repository p.pr_number) = []) :
    KeyUnique (l ++ [mkNewPR id p]) := by
  rw [KeyUnique, List.pairwise_append]
  refine ⟨h, List.pairwise_singleton _ _, ?_⟩
  intro a ha b hb
  simp only [List.mem_singleton] at hb
  subst hb
  have hnm := (List.filter_eq_nil_iff).1 hf a ha
  intro hcon
  apply hnm
  have h1 : a.repository = p.repository := hcon.1
  have h2 : a.pr_number = p.pr_number := hcon.2
  exact decide_eq_true ⟨h2, h1⟩

/-- Shape of the pull-request table after one handler run: untouched, the
committed in-place update, or the committed insert of a fresh key. -/
theorem handle_prs_shape (fromiso : String → Option Nat) (now : Nat)
    (ffail : Bool) (payload : Payload) (db : DBState) :
    (handle_pull_request_event fromiso now ffail payload db).2.prs = db.prs
    ∨ (∃ p, parse_pull_request_data fromiso now payload = Except.ok p ∧
        (handle_pull_request_event fromiso now ffail payload db).2.prs
          = apply_update p now db.prs)
    ∨ (∃ p, parse_pull_request_data fromiso now payload = Except.ok p ∧
        db.prs.filter (prKeyMatch p.repository p.pr_number) = [] ∧
        (handle_pull_request_event fromiso now ffail payload db).2.prs
          = db.prs ++ [mkNewPR db.nextPrId p]) := by
  unfold handle_pull_request_event
  split
  · left; rfl
  next a =>
    split
    · left; rfl
    · split
      · left; rfl
      · split
        · left; rfl
        next p hp =>
          split
          next f fs hm => left; rfl
          next hm =>
            split
            next m he => left; rfl
            next existing he =>
              cases existing with
              | some r =>
                right; left
                exact ⟨p, hp, by simp [handle_files_prs]⟩
              | none =>
                right; right
                refine ⟨p, hp, ?_, by simp [handle_files_prs]⟩
                unfold find_existing at he
                exact scalarOneOrNone_ok_none he

/-- One handler run preserves the `(repository, pr_number)` uniqueness
invariant. -/
theorem handle_preserves_KeyUnique (fromiso : String → Option Nat)
    (now : Nat) (ffail : Bool) (payload : Payload) {db : DBState}
    (h : KeyUnique db.prs) :
    KeyUnique ((handle_pull_request_event fromiso now ffail payload db).2).prs := by
  rcases handle_prs_shape fromiso now ffail payload db with hs | ⟨p, _, hs⟩ | ⟨p, _, hf, hs⟩
  · rw [hs]; exact h
  · rw [hs]; exact apply_update_KeyUnique p now h
  · rw [hs]; exact KeyUnique_insert p db.nextPrId h hf

/-- Any number of handler runs preserves the uniqueness invariant. -/
theorem process_events_KeyUnique (fromiso : String → Option Nat)
    (evs : List (Payload × Nat × Bool)) {db : DBState}
    (h : KeyUnique db.prs) : KeyUnique (process_events fromiso evs db).prs := by
  induction evs generalizing db with
  | nil => exact h
  | cons e t ih =>
    unfold process_events at *
    rw [List.foldl_cons]
    exact ih (handle_preserves_KeyUnique fromiso e.2.1 e.2.2 e.1 h)

/-- No supported action is the empty (falsy) string. -/
theorem supported_ne_empty {a : String} (h : a ∈ supported_actions) :
    ¬ (a = "") := by
  intro he
  rw [he] at h
  exact absurd h (by decide)

/-- Reduction of the handler on the create path: supported action, parse
success, recheck success, and no existing row for the key. -/
theorem handle_create (fromiso : String → Option Nat) (now : Nat)
    (ffail : Bool) {payload : Payload} {db : DBState} {p : ParsedPR}
    {a : String}
    (hA : payload.action = some a) (hsup : a ∈ supported_actions)
    (hp : parse_pull_request_data fromiso now payload = Except.ok p)
    (hm : missing_required p = [])
    (hf : db.prs.filter (prKeyMatch p.repository p.pr_number) = []) :
    handle_pull_request_event fromiso now ffail payload db =
      (Except.ok (HandlerOutcome.success
          ("Created new PR #" ++ toString p.pr_number) db.nextPrId
          p.pr_number a "success" p.repository p.author p.title),
        handle_files a false db.nextPrId now ffail
          { db with prs := db.prs ++ [mkNewPR db.nextPrId p]
                    nextPrId := db.nextPrId + 1 }) := by
  simp only [handle_pull_request_event, hA, hp, hm, find_existing, hf]
  rw [if_neg (supported_ne_empty hsup), if_neg (not_not_intro hsup)]
  rfl

/-- Reduction of the handler on the update path: supported action, parse
success, recheck success, and exactly one existing row for the key. -/
theorem handle_update (fromiso : String → Option Nat) (now : Nat)
    (ffail : Bool) {payload : Payload} {db : DBState} {p : ParsedPR}
    {a : String} {r : PullRequest}
    (hA : payload.action = some a) (hsup : a ∈ supported_actions)
    (hp : parse_pull_request_data fromiso now payload = Except.ok p)
    (hm : missing_required p = [])
    (hf : db.prs.filter (prKeyMatch p.repository p.pr_number) = [r]) :
    handle_pull_request_event fromiso now ffail payload db =
      (Except.ok (HandlerOutcome.success
          ("Updated existing PR #" ++ toString p.pr_number) r.id
          p.pr_number a "success" p.repository p.author p.title),
        handle_files a true r.id now ffail
          { db with prs := apply_update p now db.prs }) := by
  simp only [handle_pull_request_event, hA, hp, hm, find_existing, hf]
  rw [if_neg (supported_ne_empty hsup), if_neg (not_not_intro hsup)]
  rfl

/-- When the file-block commit raises, the rollback leaves the store
exactly as the upsert committed it. -/
theorem handle_files_ffail (a : String) (he : Bool) (prId now : Nat)
    (db : DBState) : handle_files a he prId now true db = db := by
  unfold handle_files
  split
  · split
    · rfl
    · rfl
  · rfl

/-- A timestamp parser that always fails (every date falls back to the
current time); used for concrete runs. -/
def noIso : String → Option Nat := fun _ => none

/-- Scenario A pull-request object of the spec: number 42, title
`Add auth`, author `alice`. -/
def samplePO : PRObj :=
  { PRObj.emptyObj with
    title := some "Add auth"
    user := some (some ⟨some "alice"⟩)
    number := some 42
    state := some "open" }

/-- Scenario A payload of the spec: an `opened` event on `acme/app`. -/
def samplePayload : Payload :=
  { action := some "opened"
    pull_request := some (some samplePO)
    repository := some (some ⟨some "acme/app"⟩) }

/-- The normalized field set Scenario A parses to (at time 100). -/
def sampleParsed : ParsedPR :=
  { title := "Add auth", description := "", status := PRStatus.OPEN
    author := "alice", repository := "acme/app", pr_number := 42
    github_id := none, html_url := "", branch_name := "", base_branch := ""
    commit_sha := "", base_commit_sha := "", additions := 0, deletions := 0
    changed_files := 0, commits_count := 0, draft := false, mergeable := none
    rebaseable := none, mergeable_state := none, created_at := 100
    updated_at := 100, closed_at := none, merged_at := none }

/-- The stored row Scenario A creates (surrogate id 1). -/
def storedPR : PullRequest := mkNewPR 1 sampleParsed

/-- A file row owned by the stored pull request before any new event. -/
def oldFile : File :=
  { id := 1, filename := "old.py", file_path := "old.py"
    status := "modified", additions := 1, deletions := 0, changes := 1
    sha := none, blob_url := none, raw_url := none, contents_url := none
    file_size := none, file_extension := none, pull_request_id := 1
    created_at := 50 }

/-- A store already holding the Scenario A pull request and one of its
files. -/
def db0 : DBState := ⟨[storedPR], [oldFile], 2, 2⟩

/-- The normalized field set the `synchronize` payload below parses to at
time 200. -/
def syncParsed : ParsedPR :=
  { sampleParsed with
    title := "New title", created_at := 200, updated_at := 200 }

/-- A `synchronize` payload for the same `(acme/app, 42)` key carrying a
new title. -/
def syncPayload : Payload :=
  { action := some "synchronize"
    pull_request := some (some { samplePO with title := some "New title" })
    repository := some (some ⟨some "acme/app"⟩) }

/-- C1 counterexample: a `synchronize` event on the stored PR whose
file-replacement commit fails (`ffail = true`).  The handler still
reports success, the PR update is committed (the stored title becomes
`New title`), but the file set is left untouched (`old.py` survives) —
the stored state reflects the PR mutation without its file refresh, so
the two mutations are not one atomic transaction. -/
theorem C1_counterexample :
    (handle_pull_request_event noIso 200 true syncPayload db0).1 =
      Except.ok (HandlerOutcome.success "Updated existing PR #42" 1 42
        "synchronize" "success" "acme/app" "alice" "New title")
    ∧ ((handle_pull_request_event noIso 200 true syncPayload db0).2.prs.map
        PullRequest.title) = ["New title"]
    ∧ (handle_pull_request_event noIso 200 true syncPayload db0).2.files
        = [oldFile] := by
  refine ⟨rfl, rfl, rfl⟩

/-- C1 (amended): the PR upsert and the file replacement are separate
transactions.  The upsert commits first; when the file-step commit fails
(`ffail = true`), only the pending file changes roll back: the committed
upsert stays in the store — the in-place update in the existing-row case,
the inserted row in the fresh-key case — and the handler still returns
the success result. -/
theorem C1_amended_separate_transactions (fromiso : String → Option Nat)
    (now : Nat) {payload : Payload} {db : DBState} {p : ParsedPR}
    {a : String}
    (hA : payload.action = some a) (hsup : a ∈ supported_actions)
    (hp : parse_pull_request_data fromiso now payload = Except.ok p)
    (hm : missing_required p = []) :
    (∀ r : PullRequest,
      db.prs.filter (prKeyMatch p.repository p.pr_number) = [r] →
      handle_pull_request_event fromiso now true payload db =
        (Except.ok (HandlerOutcome.success
            ("Updated existing PR #" ++ toString p.pr_number) r.id
            p.pr_number a "success" p.repository p.author p.title),
          { db with prs := apply_update p now db.prs }))
    ∧ (db.prs.filter (prKeyMatch p.repository p.pr_number) = [] →
      handle_pull_request_event fromiso now true payload db =
        (Except.ok (HandlerOutcome.success
            ("Created new PR #" ++ toString p.pr_number) db.nextPrId
            p.pr_number a "success" p.repository p.author p.title),
          { db with prs := db.prs ++ [mkNewPR db.nextPrId p]
                    nextPrId := db.nextPrId + 1 })) := by
  constructor
  · intro r hf
    rw [handle_update fromiso now true hA hsup hp hm hf,
      handle_files_ffail]
  · intro hf
    rw [handle_create fromiso now true hA hsup hp hm hf,
      handle_files_ffail]

/-- C1 witness: the amended statement instantiated on the concrete
`synchronize`-with-failing-file-commit run and on the concrete fresh
`opened`-with-failing-file-commit run. -/
theorem C1_witness :
    handle_pull_request_event noIso 200 true syncPayload db0 =
      (Except.ok (HandlerOutcome.success "Updated existing PR #42" 1 42
        "synchronize" "success" "acme/app" "alice" "New title"),
        { db0 with prs := apply_update syncParsed 200 db0.prs })
    ∧ handle_pull_request_event noIso 100 true samplePayload emptyDB =
      (Except.ok (HandlerOutcome.success "Created new PR #42" 1 42
        "opened" "success" "acme/app" "alice" "Add auth"),
        { emptyDB with prs := [mkNewPR 1 sampleParsed], nextPrId := 2 }) := by
  constructor
  · exact (@C1_amended_separate_transactions noIso 200 syncPayload db0
      syncParsed "synchronize" rfl (by decide) (by decide) (by decide)).1
      storedPR (by decide)
  · exact (@C1_amended_separate_transactions noIso 100 samplePayload emptyDB
      sampleParsed "opened" rfl (by decide) (by decide) (by decide)).2
      (by decide)

/-- C8 counterexample: a payload whose `action` field is present but is
the empty string — present and outside the supported set, yet the handler
raises the missing-action `ValueError` instead of returning the
successful ignored result. -/
theorem C8_counterexample :
    handle_pull_request_event noIso 100 false
      { samplePayload with action := some "" } emptyDB =
      (Except.error (processFailMsg missingActionMsg), emptyDB) := rfl

/-- C8 (amended): for every event whose `action` is present, non-empty
(truthy) and outside `{opened, synchronize, reopened, closed}`, the
handler returns the successful ignored result naming the received action
and the supported actions, raises nothing, and leaves the store
unchanged. -/
theorem C8_amended_ignored_action (fromiso : String → Option Nat)
    (now : Nat) (ffail : Bool) (payload : Payload) (db : DBState)
    {a : String} (hA : payload.action = some a) (hne : ¬ (a = ""))
    (hns : ¬ (a ∈ supported_actions)) :
    handle_pull_request_event fromiso now ffail payload db =
      (Except.ok (HandlerOutcome.ignored
        ("Action " ++ pyQuote ++ a ++ pyQuote ++ " not handled")
        "ignored" supported_actions a), db) := by
  simp only [handle_pull_request_event, hA]
  rw [if_neg hne, if_pos hns]

/-- C8 witness: a concrete `labeled` event is answered with the ignored
result and no store change. -/
theorem C8_witness :
    handle_pull_request_event noIso 100 false
      { samplePayload with action := some "labeled" } emptyDB =
      (Except.ok (HandlerOutcome.ignored
        ("Action " ++ pyQuote ++ "labeled" ++ pyQuote ++ " not handled")
        "ignored" supported_actions "labeled"), emptyDB) :=
  C8_amended_ignored_action noIso 100 false _ emptyDB rfl (by decide)
    (by decide)

/-- C10: `models.py` declares `pr_number` unique on its own
(`Field(unique=True)`), not as a composite key with `repository`: in any
state satisfying that declared constraint, two rows with the same
`pr_number` are the same row — in particular two pull requests with the
same number in two different repositories cannot both be stored. -/
theorem C10_pr_number_unique_alone {prs : List PullRequest}
    (h : pr_number_unique prs) :
    ∀ p ∈ prs, ∀ q ∈ prs, p.pr_number = q.pr_number →
      p = q ∧ p.repository = q.repository := by
  intro p hp q hq hn
  have hsym : Symmetric (fun a b : PullRequest => a.pr_number ≠ b.pr_number) :=
    fun x y hxy hyx => hxy hyx.symm
  have hpq : p = q := by
    by_cases he : p = q
    · exact he
    · exact absurd hn (List.Pairwise.forall hsym h hp hq he)
  exact ⟨hpq, by rw [hpq]⟩

/-- C10 witness: the declared constraint instantiated on a concrete
one-row store. -/
theorem C10_witness :
    pr_number_unique [storedPR] ∧
      (storedPR = storedPR ∧ storedPR.repository = storedPR.repository) :=
  ⟨List.pairwise_singleton _ _,
    C10_pr_number_unique_alone (List.pairwise_singleton _ _) storedPR
      (List.mem_singleton_self _) storedPR (List.mem_singleton_self _) rfl⟩

/-- After a full replace, the files owned by the pull request are exactly
the newly inserted one. -/
theorem owned_after_replace (prId : Nat) (x : File)
    (hx : x.pull_request_id = prId) (l : List File) :
    ((l.filter (fun f => ¬ (f.pull_request_id = prId)) ++ [x]).filter
      (fun f => f.pull_request_id = prId)) = [x] := by
  induction l with
  | nil => simp [hx]
  | cons a t ih =>
    by_cases hc : a.pull_request_id = prId
    · simpa [hc] using ih
    · simpa [hc] using ih

/-- Filtering for the lookup key after the committed update rewrites
exactly the rows that matched before. -/
theorem filter_apply_update (p : ParsedPR) (now : Nat)
    (l : List PullRequest) :
    (apply_update p now l).filter (prKeyMatch p.repository p.pr_number) =
      (l.filter (prKeyMatch p.repository p.pr_number)).map
        (fun r => updatedOf r p now) := by
  induction l with
  | nil => rfl
  | cons a t ih =>
    simp only [apply_update, List.map_cons] at ih ⊢
    by_cases hc : prKeyMatch p.repository p.pr_number a = true
    · simp [List.filter_cons, hc, prKeyMatch_updatedOf, ih]
    · simp [List.filter_cons, hc, prKeyMatch_updatedOf, ih]

/-- A `reopened` payload for the already-stored `(acme/app, 42)` key. -/
def reopenPayload : Payload := { samplePayload with action := some "reopened" }

/-- C5 counterexample: a `reopened` event on the already-stored pull
request.  The claim says every event with action in
`{opened, synchronize, reopened}` deletes the previously owned files and
leaves exactly the delivered set; the file block of the code runs only when
the PR is new or the action is `synchronize` (`webhooks.py` line 252), so
here the event succeeds but the old file survives and nothing is
inserted. -/
theorem C5_counterexample :
    (handle_pull_request_event noIso 200 false reopenPayload db0).1 =
      Except.ok (HandlerOutcome.success "Updated existing PR #42" 1 42
        "reopened" "success" "acme/app" "alice" "Add auth")
    ∧ (handle_pull_request_event noIso 200 false reopenPayload db0).2.files
        = [oldFile] :=
  ⟨rfl, rfl⟩

/-- C5 (amended): the file set is replaced only when the pull request is
newly created or the action is `synchronize`.  A `synchronize` on an
existing record deletes every file owned by that pull request and inserts
the delivered set (the placeholder row), so afterwards the PR owns
exactly that set; a fresh PR gets the delivered set appended; an
`opened`/`reopened` event on an existing record leaves the file table
untouched. -/
theorem C5_amended_file_replacement (fromiso : String → Option Nat)
    (now : Nat) {payload : Payload} {db : DBState} {p : ParsedPR}
    {a : String}
    (hA : payload.action = some a) (hsup : a ∈ supported_actions)
    (hp : parse_pull_request_data fromiso now payload = Except.ok p)
    (hm : missing_required p = []) :
    (∀ r : PullRequest,
      db.prs.filter (prKeyMatch p.repository p.pr_number) = [r] →
      a = "synchronize" →
      (handle_pull_request_event fromiso now false payload db).2.files =
        db.files.filter (fun f => ¬ (f.pull_request_id = r.id)) ++
          [placeholder_file db.nextFileId r.id now]
      ∧ ((handle_pull_request_event fromiso now false payload db).2.files.filter
          (fun f => f.pull_request_id = r.id)) =
            [placeholder_file db.nextFileId r.id now])
    ∧ (db.prs.filter (prKeyMatch p.repository p.pr_number) = [] →
      a ∈ file_actions →
      (handle_pull_request_event fromiso now false payload db).2.files =
        db.files ++ [placeholder_file db.nextFileId db.nextPrId now])
    ∧ (∀ r : PullRequest,
      db.prs.filter (prKeyMatch p.repository p.pr_number) = [r] →
      a = "opened" ∨ a = "reopened" →
      (handle_pull_request_event fromiso now false payload db).2.files =
        db.files) := by
  refine ⟨?_, ?_, ?_⟩
  · intro r hf hsync
    subst hsync
    rw [handle_update fromiso now false hA hsup hp hm hf]
    exact ⟨rfl, owned_after_replace r.id _ rfl db.files⟩
  · intro hf haf
    rw [handle_create fromiso now false hA hsup hp hm hf]
    show (handle_files a false db.nextPrId now false _).files = _
    unfold handle_files
    rw [if_pos haf, if_pos (Or.inl (by decide)), if_neg (by decide)]
    rfl
  · intro r hf hor
    rcases hor with h | h
    all_goals subst h
    all_goals rw [handle_update fromiso now false hA hsup hp hm hf]
    all_goals rfl

/-- A store holding the Scenario A pull request with three owned files. -/
def db3 : DBState :=
  ⟨[storedPR],
    [oldFile, { oldFile with id := 2, filename := "b.py" },
      { oldFile with id := 3, filename := "c.py" }], 2, 4⟩

/-- C5 witness: the 3-file example of the spec — a `synchronize` delivering one
file (the placeholder) on a PR owning three files leaves it owning
exactly that one file. -/
theorem C5_witness :
    (handle_pull_request_event noIso 200 false syncPayload db3).2.files =
      db3.files.filter (fun f => ¬ (f.pull_request_id = 1)) ++
        [placeholder_file 4 1 200]
    ∧ ((handle_pull_request_event noIso 200 false syncPayload db3).2.files.filter
        (fun f => f.pull_request_id = 1)) = [placeholder_file 4 1 200] :=
  (@C5_amended_file_replacement noIso 200 syncPayload db3 syncParsed
    "synchronize" rfl (by decide) (by decide) (by decide)).1 storedPR
    (by decide) rfl

/-- Scenario B payload of the spec: a `closed` event for the same key with
provider state `closed`. -/
def closedPayload : Payload :=
  { action := some "closed"
    pull_request := some (some { samplePO with state := some "closed" })
    repository := some (some ⟨some "acme/app"⟩) }

/-- The normalized field set Scenario B parses to at time 300. -/
def closedParsed : ParsedPR :=
  { sampleParsed with
    status := PRStatus.CLOSED, created_at := 300, updated_at := 300 }

/-- C6: when an event matches an existing stored pull request, the stored
row afterwards carries every normalized field except the surrogate `id`,
`pr_number` and `repository` (which keep their stored values),
`updated_at` is the current time regardless of the parsed value, and the
result message reports an update. -/
theorem C6_update_frame (fromiso : String → Option Nat) (now : Nat)
    (ffail : Bool) {payload : Payload} {db : DBState} {p : ParsedPR}
    {a : String} {r : PullRequest}
    (hA : payload.action = some a) (hsup : a ∈ supported_actions)
    (hp : parse_pull_request_data fromiso now payload = Except.ok p)
    (hm : missing_required p = [])
    (hf : db.prs.filter (prKeyMatch p.repository p.pr_number) = [r]) :
    (handle_pull_request_event fromiso now ffail payload db).1 =
      Except.ok (HandlerOutcome.success
        ("Updated existing PR #" ++ toString p.pr_number) r.id p.pr_number
        a "success" p.repository p.author p.title)
    ∧ (handle_pull_request_event fromiso now ffail payload db).2.prs.filter
        (prKeyMatch p.repository p.pr_number) = [updatedOf r p now]
    ∧ ((updatedOf r p now).id = r.id
      ∧ (updatedOf r p now).pr_number = r.pr_number
      ∧ (updatedOf r p now).repository = r.repository)
    ∧ ((updatedOf r p now).title = p.title
      ∧ (updatedOf r p now).description = p.description
      ∧ (updatedOf r p now).status = p.status
      ∧ (updatedOf r p now).author = p.author
      ∧ (updatedOf r p now).github_id = p.github_id
      ∧ (updatedOf r p now).html_url = p.html_url
      ∧ (updatedOf r p now).branch_name = p.branch_name
      ∧ (updatedOf r p now).base_branch = p.base_branch
      ∧ (updatedOf r p now).commit_sha = p.commit_sha
      ∧ (updatedOf r p now).base_commit_sha = p.base_commit_sha
      ∧ (updatedOf r p now).additions = p.additions
      ∧ (updatedOf r p now).deletions = p.deletions
      ∧ (updatedOf r p now).changed_files = p.changed_files
      ∧ (updatedOf r p now).commits_count = p.commits_count
      ∧ (updatedOf r p now).draft = p.draft
      ∧ (updatedOf r p now).mergeable = p.mergeable
      ∧ (updatedOf r p now).rebaseable = p.rebaseable
      ∧ (updatedOf r p now).mergeable_state = p.mergeable_state
      ∧ (updatedOf r p now).created_at = p.created_at
      ∧ (updatedOf r p now).closed_at = p.closed_at
      ∧ (updatedOf r p now).merged_at = p.merged_at)
    ∧ (updatedOf r p now).updated_at = now := by
  refine ⟨?_, ?_, ⟨rfl, rfl, rfl⟩,
    ⟨rfl, rfl, rfl, rfl, rfl, rfl, rfl, rfl, rfl, rfl, rfl, rfl, rfl, rfl,
      rfl, rfl, rfl, rfl, rfl, rfl, rfl⟩, rfl⟩
  · rw [handle_update fromiso now ffail hA hsup hp hm hf]
  · rw [handle_update fromiso now ffail hA hsup hp hm hf]
    show (handle_files a true r.id now ffail _).prs.filter _ = _
    rw [handle_files_prs]
    show (apply_update p now db.prs).filter _ = _
    rw [filter_apply_update, hf]
    rfl

/-- C6 witness: the Scenario B `closed` event on the stored Scenario A
pull request reports an update and rewrites the stored row in place. -/
theorem C6_witness :
    (handle_pull_request_event noIso 300 false closedPayload db0).1 =
      Except.ok (HandlerOutcome.success "Updated existing PR #42" 1 42
        "closed" "success" "acme/app" "alice" "Add auth")
    ∧ (handle_pull_request_event noIso 300 false closedPayload db0).2.prs.filter
        (prKeyMatch "acme/app" 42) = [updatedOf storedPR closedParsed 300] :=
  ⟨(@C6_update_frame noIso 300 false closedPayload db0 closedParsed "closed"
      storedPR rfl (by decide) (by decide) (by decide) (by decide)).1,
    (@C6_update_frame noIso 300 false closedPayload db0 closedParsed "closed"
      storedPR rfl (by decide) (by decide) (by decide) (by decide)).2.1⟩

/-- C2: (a) one handler run preserves the `(repository, pr_number)`
uniqueness invariant, (b) every state reachable by processing events from
the empty store satisfies it, and (c) for two successfully processed
events sharing a key, the first (on a store without that key) creates the
row and the second updates that same row — same surrogate id, same result
id, no new row inserted. -/
theorem C2_upsert_no_duplicates (fromiso : String → Option Nat)
    (now now2 : Nat) (ffail ffail2 : Bool)
    {payload payload2 : Payload} {db : DBState} {p p2 : ParsedPR}
    {a a2 : String}
    (hA : payload.action = some a) (hsup : a ∈ supported_actions)
    (hp : parse_pull_request_data fromiso now payload = Except.ok p)
    (hm : missing_required p = [])
    (hfresh : db.prs.filter (prKeyMatch p.repository p.pr_number) = [])
    (hA2 : payload2.action = some a2) (hsup2 : a2 ∈ supported_actions)
    (hp2 : parse_pull_request_data fromiso now2 payload2 = Except.ok p2)
    (hm2 : missing_required p2 = [])
    (hkeyr : p2.repository = p.repository)
    (hkeyn : p2.pr_number = p.pr_number) :
    (∀ (q : Payload) (n : Nat) (ff : Bool) (d : DBState), KeyUnique d.prs →
      KeyUnique ((handle_pull_request_event fromiso n ff q d).2).prs)
    ∧ (∀ evs : List (Payload × Nat × Bool),
      KeyUnique (process_events fromiso evs emptyDB).prs)
    ∧ ((handle_pull_request_event fromiso now ffail payload db).1 =
        Except.ok (HandlerOutcome.success
          ("Created new PR #" ++ toString p.pr_number) db.nextPrId
          p.pr_number a "success" p.repository p.author p.title)
      ∧ (handle_pull_request_event fromiso now ffail payload db).2.prs.filter
          (prKeyMatch p.repository p.pr_number) = [mkNewPR db.nextPrId p]
      ∧ (handle_pull_request_event fromiso now2 ffail2 payload2
          (handle_pull_request_event fromiso now ffail payload db).2).1 =
        Except.ok (HandlerOutcome.success
          ("Updated existing PR #" ++ toString p2.pr_number) db.nextPrId
          p2.pr_number a2 "success" p2.repository p2.author p2.title)
      ∧ (handle_pull_request_event fromiso now2 ffail2 payload2
          (handle_pull_request_event fromiso now ffail payload db).2).2.prs.length
        = (handle_pull_request_event fromiso now ffail payload db).2.prs.length) := by
  have hk : prKeyMatch p.repository p.pr_number (mkNewPR db.nextPrId p)
      = true := decide_eq_true ⟨rfl, rfl⟩
  have hB : (handle_pull_request_event fromiso now ffail payload db).2.prs.filter
      (prKeyMatch p.repository p.pr_number) = [mkNewPR db.nextPrId p] := by
    rw [handle_create fromiso now ffail hA hsup hp hm hfresh]
    show (handle_files a false db.nextPrId now ffail _).prs.filter _ = _
    rw [handle_files_prs]
    show (db.prs ++ [mkNewPR db.nextPrId p]).filter _ = _
    rw [List.filter_append, hfresh]
    simp [List.filter_cons, hk]
  have hf2 : (handle_pull_request_event fromiso now ffail payload db).2.prs.filter
      (prKeyMatch p2.repository p2.pr_number) = [mkNewPR db.nextPrId p] := by
    rw [hkeyr, hkeyn]
    exact hB
  refine ⟨fun q n ff d hd => handle_preserves_KeyUnique fromiso n ff q hd,
    fun evs => process_events_KeyUnique fromiso evs List.Pairwise.nil,
    ?_, hB, ?_, ?_⟩
  · rw [handle_create fromiso now ffail hA hsup hp hm hfresh]
  · rw [handle_update fromiso now2 ffail2 hA2 hsup2 hp2 hm2 hf2]
    rfl
  · rw [handle_update fromiso now2 ffail2 hA2 hsup2 hp2 hm2 hf2]
    show (handle_files a2 true _ now2 ffail2 _).prs.length = _
    rw [handle_files_prs]
    show (apply_update p2 now2 _).length = _
    unfold apply_update
    rw [List.length_map]

/-- C2 witness: Scenario A (`opened`, fresh store) followed by Scenario B
(`closed`, same key): one created row, then an in-place update of that
same row with no growth of the table. -/
theorem C2_witness :
    (handle_pull_request_event noIso 100 false samplePayload emptyDB).1 =
      Except.ok (HandlerOutcome.success "Created new PR #42" 1 42 "opened"
        "success" "acme/app" "alice" "Add auth")
    ∧ (handle_pull_request_event noIso 100 false samplePayload
        emptyDB).2.prs.filter (prKeyMatch "acme/app" 42) = [mkNewPR 1 sampleParsed]
    ∧ (handle_pull_request_event noIso 300 false closedPayload
        (handle_pull_request_event noIso 100 false samplePayload emptyDB).2).1 =
      Except.ok (HandlerOutcome.success "Updated existing PR #42" 1 42
        "closed" "success" "acme/app" "alice" "Add auth")
    ∧ (handle_pull_request_event noIso 300 false closedPayload
        (handle_pull_request_event noIso 100 false samplePayload
          emptyDB).2).2.prs.length =
      (handle_pull_request_event noIso 100 false samplePayload
        emptyDB).2.prs.length :=
  (@C2_upsert_no_duplicates noIso 100 300 false false samplePayload
    closedPayload emptyDB sampleParsed closedParsed "opened" "closed" rfl
    (by decide) (by decide) (by decide) (by decide) rfl (by decide)
    (by decide) (by decide) rfl rfl).2.2

/-- Facts every successful parse guarantees: the payload had a real
pull-request object, the parsed number is the `number` value of the payload,
and the three required strings are non-empty. -/
theorem parse_ok_shape (fromiso : String → Option Nat) (now : Nat)
    {payload : Payload} {p : ParsedPR}
    (hp : parse_pull_request_data fromiso now payload = Except.ok p) :
    ∃ po, payload.pull_request = some (some po)
      ∧ po.number = some p.pr_number
      ∧ ¬ (p.title = "") ∧ ¬ (p.author = "") ∧ ¬ (p.repository = "") := by
  rcases hpl : payload.pull_request with _ | opo
  · exfalso
    unfold parse_pull_request_data at hp
    rw [hpl] at hp
    exact Except.noConfusion hp
  · rcases opo with _ | po
    · exfalso
      unfold parse_pull_request_data at hp
      rw [hpl] at hp
      exact Except.noConfusion hp
    · unfold parse_pull_request_data at hp
      rw [hpl] at hp
      simp only [Option.getD_some] at hp
      refine ⟨po, rfl, ?_⟩
      split at hp
      · exact Except.noConfusion hp
      · split at hp
        · exact Except.noConfusion hp
        next hTitle =>
          split at hp
          · exact Except.noConfusion hp
          next u hu =>
            split at hp
            · exact Except.noConfusion hp
            next hAuthor =>
              split at hp
              · exact Except.noConfusion hp
              next rr hr =>
                split at hp
                · exact Except.noConfusion hp
                next hRepo =>
                  split at hp
                  · exact Except.noConfusion hp
                  next num hnum =>
                    split at hp
                    · exact Except.noConfusion hp
                    next hh hhh =>
                      split at hp
                      · exact Except.noConfusion hp
                      next bb hbb =>
                        injection hp with h
                        subst h
                        exact ⟨hnum, hTitle, hAuthor, hRepo⟩

/-- A parsed record whose `pr_number` is the falsy `0` always fails the
required-field recheck. -/
theorem missing_required_ne_nil {p : ParsedPR} (hz : p.pr_number = 0) :
    ¬ (missing_required p = []) := by
  simp [missing_required, hz]

/-- C9: a payload whose pull-request `number` is present and equal to `0`
can never be ingested: (a) for every store the handler leaves it
unchanged and never returns the success result, (b) the parse step itself
accepts `0` (any successful parse carries `pr_number = 0`), and (c) with
a supported action and a successful parse, the handler fails with the
validation error reporting `pr_number` as a missing required field —
the recheck treats the falsy `0` as missing. -/
theorem C9_pr_number_zero (fromiso : String → Option Nat) (now : Nat)
    (ffail : Bool) {payload : Payload} {po : PRObj}
    (hpo : payload.pull_request = some (some po))
    (hzero : po.number = some 0) :
    (∀ db : DBState,
      (handle_pull_request_event fromiso now ffail payload db).2 = db
      ∧ ∀ r, (handle_pull_request_event fromiso now ffail payload db).1 =
          Except.ok r → r.isSuccess = false)
    ∧ (∀ p : ParsedPR,
      parse_pull_request_data fromiso now payload = Except.ok p →
        p.pr_number = 0)
    ∧ (∀ (db : DBState) (a : String) (p : ParsedPR),
      payload.action = some a → a ∈ supported_actions →
      parse_pull_request_data fromiso now payload = Except.ok p →
      handle_pull_request_event fromiso now ffail payload db =
        (Except.error (processFailMsg
          ("Missing required fields: " ++ pyListRepr ["pr_number"])), db)) := by
  have hnum0 : ∀ p : ParsedPR,
      parse_pull_request_data fromiso now payload = Except.ok p →
      p.pr_number = 0 := by
    intro p hp
    rcases parse_ok_shape fromiso now hp with ⟨po2, hpo2, hnum, _⟩
    rw [hpo] at hpo2
    injection hpo2 with h1
    injection h1 with h2
    rw [← h2, hzero] at hnum
    injection hnum with h3
    exact h3.symm
  refine ⟨?_, hnum0, ?_⟩
  · intro db
    unfold handle_pull_request_event
    split
    · exact ⟨rfl, fun r hr => Except.noConfusion hr⟩
    next a =>
      split
      · exact ⟨rfl, fun r hr => Except.noConfusion hr⟩
      · split
        · refine ⟨rfl, fun r hr => ?_⟩
          injection hr with h
          rw [← h]
          rfl
        · split
          · exact ⟨rfl, fun r hr => Except.noConfusion hr⟩
          next p hp =>
            split
            next f fs hm => exact ⟨rfl, fun r hr => Except.noConfusion hr⟩
            next hm => exact absurd hm (missing_required_ne_nil (hnum0 p hp))
  · intro db a p hA hsup hp
    rcases parse_ok_shape fromiso now hp with ⟨po2, hpo2, hnum, ht, ha, hr⟩
    have hm : missing_required p = ["pr_number"] := by
      simp [missing_required, ht, ha, hr, hnum0 p hp]
    simp only [handle_pull_request_event, hA, hp, hm]
    rw [if_neg (supported_ne_empty hsup), if_neg (not_not_intro hsup)]

/-- A Scenario A payload whose pull-request number is `0`. -/
def zeroPayload : Payload :=
  { samplePayload with
    pull_request := some (some { samplePO with number := some 0 }) }

/-- C9 witness: the concrete number-0 payload parses successfully but the
handler rejects it with the missing-`pr_number` validation error and
leaves the store unchanged. -/
theorem C9_witness :
    (handle_pull_request_event noIso 100 false zeroPayload emptyDB).2 = emptyDB
    ∧ parse_pull_request_data noIso 100 zeroPayload =
        Except.ok { sampleParsed with pr_number := 0 }
    ∧ handle_pull_request_event noIso 100 false zeroPayload emptyDB =
        (Except.error (processFailMsg
          ("Missing required fields: " ++ pyListRepr ["pr_number"])), emptyDB) :=
  ⟨((@C9_pr_number_zero noIso 100 false zeroPayload
      { samplePO with number := some 0 } rfl rfl).1 emptyDB).1,
    by decide,
    (@C9_pr_number_zero noIso 100 false zeroPayload
      { samplePO with number := some 0 } rfl rfl).2.2 emptyDB "opened"
      { sampleParsed with pr_number := 0 } rfl (by decide) (by decide)⟩

/-- A Scenario A payload whose `user` key is JSON `null`. -/
def nullUserPayload : Payload :=
  { samplePayload with
    pull_request := some (some { samplePO with user := some none }) }

/-- C4 counterexample: with `user: null` the pull-request author is
absent, so the claim requires a validation error naming `author`; the
code instead evaluates `pr_data.get("user", {}).get("login", "")` on
`None`, and the resulting `AttributeError` is wrapped into an error that
names no field. -/
theorem C4_counterexample :
    parse_pull_request_data noIso 100 nullUserPayload =
      Except.error (parseFailTag ++ noneTypeGetMsg)
    ∧ ¬ (parseFailTag ++ noneTypeGetMsg =
          parseFailTag ++ "Pull request author is missing") := by
  exact ⟨rfl, by decide⟩

/-- C4 (amended): for a payload with a real, non-empty pull-request
object, a missing/null/empty `title`, a missing/null/empty author login
(when the `user` object is absent or real), a missing/null/empty
repository full name (when the `repository` object is absent or real) and
a missing/null number each fail with the validation error naming exactly
that field — and no record is returned; but when the `user` object, or
the `repository` object, is itself JSON `null`, the parse still fails and
returns no record, with the generic `AttributeError` text instead of a
field name. -/
theorem C4_amended_field_validation (fromiso : String → Option Nat)
    (now : Nat) {payload : Payload} {po : PRObj}
    (hpo : payload.pull_request = some (some po))
    (hne : ¬ (po.isEmptyObj = true)) :
    ((po.title = none ∨ po.title = some "") →
      parse_pull_request_data fromiso now payload =
        Except.error (parseFailTag ++ "Pull request title is missing"))
    ∧ (∀ t : String, po.title = some t → ¬ (t = "") →
      (po.user = none ∨ ∃ u, po.user = some (some u) ∧
        (u.login = none ∨ u.login = some "")) →
      parse_pull_request_data fromiso now payload =
        Except.error (parseFailTag ++ "Pull request author is missing"))
    ∧ (∀ (t : String) (u : UserObj) (lg : String),
      po.title = some t → ¬ (t = "") →
      po.user = some (some u) → u.login = some lg → ¬ (lg = "") →
      (payload.repository = none ∨ ∃ ro, payload.repository = some (some ro) ∧
        (ro.full_name = none ∨ ro.full_name = some "")) →
      parse_pull_request_data fromiso now payload =
        Except.error (parseFailTag ++ "Repository information is missing"))
    ∧ (∀ (t : String) (u : UserObj) (lg : String) (ro : RepoObj) (rn : String),
      po.title = some t → ¬ (t = "") →
      po.user = some (some u) → u.login = some lg → ¬ (lg = "") →
      payload.repository = some (some ro) → ro.full_name = some rn →
      ¬ (rn = "") → po.number = none →
      parse_pull_request_data fromiso now payload =
        Except.error (parseFailTag ++ "Pull request number is missing"))
    ∧ (∀ t : String, po.title = some t → ¬ (t = "") →
      po.user = some none →
      parse_pull_request_data fromiso now payload =
        Except.error (parseFailTag ++ noneTypeGetMsg))
    ∧ (∀ (t : String) (u : UserObj) (lg : String),
      po.title = some t → ¬ (t = "") →
      po.user = some (some u) → u.login = some lg → ¬ (lg = "") →
      payload.repository = some none →
      parse_pull_request_data fromiso now payload =
        Except.error (parseFailTag ++ noneTypeGetMsg)) := by
  have hcond : ¬ ((((some (some po) : Option (Option PRObj)) == some none)
      || po.isEmptyObj) = true) := by
    simp [hne]
  refine ⟨?_, ?_, ?_, ?_, ?_, ?_⟩
  · intro ht
    have htit : po.title.getD "" = "" := by
      rcases ht with h | h
      all_goals simp [h]
    unfold parse_pull_request_data
    rw [hpo]
    simp only [Option.getD_some]
    rw [if_neg hcond, htit, if_pos rfl]
  · intro t htit htne hu
    unfold parse_pull_request_data
    rw [hpo]
    simp only [Option.getD_some]
    rw [if_neg hcond, htit]
    simp only [Option.getD_some]
    rw [if_neg htne]
    rcases hu with h | ⟨u, h, hlg⟩
    · rw [h]
      rfl
    · rw [h]
      have : u.login.getD "" = "" := by
        rcases hlg with h2 | h2
        all_goals simp [h2]
      simp only [Option.getD_some, this]
      rfl
  · intro t u lg htit htne huser hlg hlgne hrep
    unfold parse_pull_request_data
    rw [hpo]
    simp only [Option.getD_some]
    rw [if_neg hcond, htit]
    simp only [Option.getD_some]
    rw [if_neg htne, huser]
    simp only [Option.getD_some]
    rw [hlg]
    simp only [Option.getD_some]
    rw [if_neg hlgne]
    rcases hrep with h | ⟨ro, h, hfn⟩
    · rw [h]
      rfl
    · rw [h]
      have : ro.full_name.getD "" = "" := by
        rcases hfn with h2 | h2
        all_goals simp [h2]
      simp only [Option.getD_some, this]
      rfl
  · intro t u lg ro rn htit htne huser hlg hlgne hrep hfn hrnne hnum
    unfold parse_pull_request_data
    rw [hpo]
    simp only [Option.getD_some]
    rw [if_neg hcond, htit]
    simp only [Option.getD_some]
    rw [if_neg htne, huser]
    simp only [Option.getD_some]
    rw [hlg]
    simp only [Option.getD_some]
    rw [if_neg hlgne, hrep]
    simp only [Option.getD_some]
    rw [hfn]
    simp only [Option.getD_some]
    rw [if_neg hrnne, hnum]
  · intro t htit htne huser
    unfold parse_pull_request_data
    rw [hpo]
    simp only [Option.getD_some]
    rw [if_neg hcond, htit]
    simp only [Option.getD_some]
    rw [if_neg htne, huser]
  · intro t u lg htit htne huser hlg hlgne hrep
    unfold parse_pull_request_data
    rw [hpo]
    simp only [Option.getD_some]
    rw [if_neg hcond, htit]
    simp only [Option.getD_some]
    rw [if_neg htne, huser]
    simp only [Option.getD_some]
    rw [hlg]
    simp only [Option.getD_some]
    rw [if_neg hlgne, hrep]

/-- C4 witness: each required field missing on a concrete payload yields
the error naming exactly that field; a JSON-null `user` object and a
JSON-null `repository` object each yield the generic attribute error. -/
theorem C4_witness :
    parse_pull_request_data noIso 100
      { samplePayload with
        pull_request := some (some { samplePO with title := none }) } =
      Except.error (parseFailTag ++ "Pull request title is missing")
    ∧ parse_pull_request_data noIso 100
      { samplePayload with
        pull_request := some (some { samplePO with
          user := some (some ⟨some ""⟩) }) } =
      Except.error (parseFailTag ++ "Pull request author is missing")
    ∧ parse_pull_request_data noIso 100
      { samplePayload with repository := none } =
      Except.error (parseFailTag ++ "Repository information is missing")
    ∧ parse_pull_request_data noIso 100
      { samplePayload with
        pull_request := some (some { samplePO with number := none }) } =
      Except.error (parseFailTag ++ "Pull request number is missing")
    ∧ parse_pull_request_data noIso 100 nullUserPayload =
      Except.error (parseFailTag ++ noneTypeGetMsg)
    ∧ parse_pull_request_data noIso 100
      { samplePayload with repository := some none } =
      Except.error (parseFailTag ++ noneTypeGetMsg) :=
  ⟨(@C4_amended_field_validation noIso 100
      { samplePayload with
        pull_request := some (some { samplePO with title := none }) }
      { samplePO with title := none } rfl (by decide)).1 (Or.inl rfl),
    (@C4_amended_field_validation noIso 100
      { samplePayload with
        pull_request := some (some { samplePO with
          user := some (some ⟨some ""⟩) }) }
      { samplePO with user := some (some ⟨some ""⟩) } rfl (by decide)).2.1
      "Add auth" rfl (by decide)
      (Or.inr ⟨⟨some ""⟩, rfl, Or.inr rfl⟩),
    (@C4_amended_field_validation noIso 100
      { samplePayload with repository := none } samplePO rfl
      (by decide)).2.2.1 "Add auth" ⟨some "alice"⟩ "alice" rfl (by decide)
      rfl rfl (by decide) (Or.inl rfl),
    (@C4_amended_field_validation noIso 100
      { samplePayload with
        pull_request := some (some { samplePO with number := none }) }
      { samplePO with number := none } rfl (by decide)).2.2.2.1 "Add auth"
      ⟨some "alice"⟩ "alice" ⟨some "acme/app"⟩ "acme/app" rfl (by decide)
      rfl rfl (by decide) rfl rfl (by decide) rfl,
    (@C4_amended_field_validation noIso 100 nullUserPayload
      { samplePO with user := some none } rfl (by decide)).2.2.2.2.1
      "Add auth" rfl (by decide) rfl,
    (@C4_amended_field_validation noIso 100
      { samplePayload with repository := some none } samplePO rfl
      (by decide)).2.2.2.2.2 "Add auth" ⟨some "alice"⟩ "alice" rfl
      (by decide) rfl rfl (by decide) rfl⟩

/-- A concrete stand-in digest function for closed runs. -/
def cMac : String → List Nat → String := fun _ _ => "ff"

/-- A syntactically valid request carrying a `push` event header. -/
def pushReq : Request := ⟨[1], some samplePayload, none, some "push"⟩

/-- A `pull_request` request whose signature header does not match. -/
def badSigReq : Request :=
  ⟨[1], some samplePayload, some "sha256=deadbeef", some "pull_request"⟩

/-- A syntactically valid request whose event-type header is present but
empty. -/
def emptyEventReq : Request := ⟨[1], some samplePayload, none, some ""⟩

/-- C7 counterexample: the claim covers every request whose event-type
header is present but not `pull_request`, and asserts the ignored-event
response naming the received type.  An empty-string header is such a
request, but the falsy check `if not event_type` (`main.py` line 325)
answers it with 400 `Missing event type`, not the ignored-event
response. -/
theorem C7_counterexample :
    github_webhook cMac "" noIso 100 false emptyEventReq db0 =
      (GWResponse.httpError 400 "Missing event type", db0)
    ∧ ¬ (GWResponse.httpError 400 "Missing event type" =
        GWResponse.eventIgnored
          ("Event type " ++ pyQuote ++ "" ++ pyQuote ++ " not handled")
          "ignored" ["pull_request"] "") :=
  ⟨rfl, by decide⟩

/-- C7 (amended): before the handler runs, the webhook route answers
without any database interaction: a present, non-empty,
non-`pull_request` event type gets the ignored response naming it; a
present-but-empty event-type header is falsy and gets the same 400 as an
absent one; a failed signature gets a 401; an empty body, unparseable
JSON, or a missing `pull_request` key each get their 400 — and in every
one of those cases the store after the request equals the store before
it. -/
theorem C7_pre_handler_no_writes (hexMac : String → List Nat → String)
    (secret : String) (fromiso : String → Option Nat) (now : Nat)
    (ffail : Bool) (req : Request) (db : DBState) :
    (∀ (pl : Payload) (e : String), req.body ≠ [] → req.json = some pl →
      verify_signature hexMac secret req.sigHeader req.body = true →
      req.eventHeader = some e → ¬ (e = "") → ¬ (e = "pull_request") →
      github_webhook hexMac secret fromiso now ffail req db =
        (GWResponse.eventIgnored
          ("Event type " ++ pyQuote ++ e ++ pyQuote ++ " not handled")
          "ignored" ["pull_request"] e, db))
    ∧ (∀ pl : Payload, req.body ≠ [] → req.json = some pl →
      verify_signature hexMac secret req.sigHeader req.body = false →
      github_webhook hexMac secret fromiso now ffail req db =
        (GWResponse.httpError 401 "Invalid webhook signature", db))
    ∧ (req.body = [] →
      github_webhook hexMac secret fromiso now ffail req db =
        (GWResponse.httpError 400 "Empty payload", db))
    ∧ (req.body ≠ [] → req.json = none →
      github_webhook hexMac secret fromiso now ffail req db =
        (GWResponse.httpError 400 "Invalid JSON payload", db))
    ∧ (∀ pl : Payload, req.body ≠ [] → req.json = some pl →
      verify_signature hexMac secret req.sigHeader req.body = true →
      (req.eventHeader = none ∨ req.eventHeader = some "") →
      github_webhook hexMac secret fromiso now ffail req db =
        (GWResponse.httpError 400 "Missing event type", db))
    ∧ (∀ pl : Payload, req.body ≠ [] → req.json = some pl →
      verify_signature hexMac secret req.sigHeader req.body = true →
      req.eventHeader = some "pull_request" → pl.pull_request = none →
      github_webhook hexMac secret fromiso now ffail req db =
        (GWResponse.httpError 400 "Missing pull request data", db)) := by
  refine ⟨?_, ?_, ?_, ?_, ?_, ?_⟩
  · intro pl e hb hj hv he hne0 hne
    simp only [github_webhook, hj, he]
    rw [if_neg hb, if_neg (by simp [hv]), if_neg hne0, if_pos hne]
  · intro pl hb hj hv
    simp only [github_webhook, hj]
    rw [if_neg hb, if_pos hv]
  · intro hb
    simp only [github_webhook]
    rw [if_pos hb]
  · intro hb hj
    simp only [github_webhook, hj]
    rw [if_neg hb]
  · intro pl hb hj hv he
    rcases he with he | he
    · simp only [github_webhook, hj, he]
      rw [if_neg hb, if_neg (by simp [hv])]
    · simp only [github_webhook, hj, he]
      rw [if_neg hb, if_neg (by simp [hv])]
      rfl
  · intro pl hb hj hv he hpr
    simp only [github_webhook, hj, he]
    rw [if_neg hb, if_neg (by simp [hv]), if_neg (by simp),
      if_neg (by simp), if_pos hpr]

/-- C7 witness: a concrete `push` request is answered with the ignored
response naming `push`, a concrete bad-signature request with a 401, and
a concrete empty-event-header request with the 400; the store is
unchanged in all three runs. -/
theorem C7_witness :
    github_webhook cMac "" noIso 100 false pushReq db0 =
      (GWResponse.eventIgnored
        ("Event type " ++ pyQuote ++ "push" ++ pyQuote ++ " not handled")
        "ignored" ["pull_request"] "push", db0)
    ∧ github_webhook cMac "secret" noIso 100 false badSigReq db0 =
      (GWResponse.httpError 401 "Invalid webhook signature", db0)
    ∧ github_webhook cMac "" noIso 100 false emptyEventReq db0 =
      (GWResponse.httpError 400 "Missing event type", db0) :=
  ⟨(C7_pre_handler_no_writes cMac "" noIso 100 false pushReq db0).1
      samplePayload "push" (by decide) rfl (by decide) rfl (by decide)
      (by decide),
    (C7_pre_handler_no_writes cMac "secret" noIso 100 false badSigReq
      db0).2.1 samplePayload (by decide) rfl (by decide),
    (C7_pre_handler_no_writes cMac "" noIso 100 false emptyEventReq
      db0).2.2.2.2.1 samplePayload (by decide) rfl (by decide)
      (Or.inr rfl)⟩

/-- Basic contract of `verify_signature`, for any digest function: open
mode when no secret is configured, failure when a secret is configured
but the header is absent, success on the correctly formatted expected
header. -/
theorem verify_signature_basic (hexMac : String → List Nat → String)
    (secret : String) (body : List Nat) (sig : Option String) :
    (secret = "" → verify_signature hexMac secret sig body = true)
    ∧ (¬ (secret = "") →
      verify_signature hexMac secret none body = false)
    ∧ (¬ (secret = "") →
      verify_signature hexMac secret
        (some ("sha256=" ++ hexMac secret body)) body = true) := by
  refine ⟨fun h => by simp [verify_signature, h],
    fun h => by simp [verify_signature, h],
    fun h => by simp [verify_signature, h]⟩
